import Mathlib

/-!
Verification of the numeric core of the solar-orbit-predictor repository.

The TypeScript source (`src/orbitalMath.ts`, `src/planetData.ts`,
`src/planetaryTransforms.ts`, `src/types.ts`) is embedded shallowly:
JavaScript `number` values are modelled as real numbers, so every
`isNaN`/`isFinite` guard of the source is vacuous in the model (no real
number is NaN or infinite).  `console.log`/`console.error` calls are
diagnostics and are dropped, with one semantic exception: the first debug
log of `calculatePlanetPosition` evaluates `spaceTime.date.toISOString()`,
which throws a `RangeError` for the invalid-date sentinel, so the `catch`
of that function returns the origin whenever the instant's calendar date is
invalid; this reachable path is modelled explicitly.  All other `try`/
`catch` wrappers never fire on representable inputs.  The Newton-Raphson
`do`/`while` loop of `solveKepler` has no iteration bound in the source, so
it is embedded with an explicit fuel parameter: a `none` result means the
loop has not finished within `fuel` further iterations (non-termination is
`none` for every fuel).
-/

open Real

/-- Model of a JavaScript `Date`: `valid` is false for the "Invalid Date"
sentinel (`isNaN(date.getTime())`).  `month` is zero-based, as returned by
`Date.getMonth()`; `date` is the day of the month (`Date.getDate()`). -/
structure JSDate where
  valid : Bool
  fullYear : ℤ
  month : ℤ
  date : ℤ
  hours : ℤ
  minutes : ℤ
  seconds : ℤ

/-- Field `OrbitalPosition` of `src/types.ts`. -/
structure OrbitalPosition where
  x : ℝ
  y : ℝ
  z : ℝ

/-- Field-for-field model of the `Planet` interface of `src/types.ts`. -/
structure Planet where
  name : String
  semiMajorAxis : ℝ
  eccentricity : ℝ
  inclination : ℝ
  longitudeOfAscendingNode : ℝ
  argumentOfPeriapsis : ℝ
  meanAnomaly : ℝ
  orbitalPeriod : ℝ
  radius : ℝ
  color : String

/-- Model of the `SpaceTime` interface of `src/types.ts`. -/
structure SpaceTime where
  date : JSDate
  julianDay : ℝ

namespace THREE

/-- Model of a `THREE.Vector3` as used by the path and perihelion helpers. -/
structure Vector3 where
  x : ℝ
  y : ℝ
  z : ℝ

end THREE

/-- `degToRad` of `orbitalMath.ts`; the NaN/Infinity guard of the source is
vacuous over ℝ. -/
noncomputable def degToRad (degrees : ℝ) : ℝ :=
  degrees * π / 180

/-- Truncation toward zero, the rounding used by the JavaScript `%`
operator (`x % y = x - y * trunc (x / y)`). -/
noncomputable def jsTrunc (r : ℝ) : ℤ :=
  if 0 ≤ r then ⌊r⌋ else ⌈r⌉

/-- The JavaScript remainder operator `x % y` on real inputs. -/
noncomputable def jsRem (x y : ℝ) : ℝ :=
  x - y * (jsTrunc (x / y) : ℝ)

/-- `dateToJulianDay` of `orbitalMath.ts`.  The first guard returns the
J2000 fallback for the invalid-date sentinel; the second guard
(`isNaN(jd) || !isFinite(jd)`) is vacuous over ℝ, and the `catch` branch is
unreachable.  `Math.floor` on an integer quotient with positive divisor is
Lean's integer division `/` (which rounds toward negative infinity). -/
noncomputable def dateToJulianDay (d : JSDate) : ℝ :=
  if d.valid = false then 2451545.0
  else
    let a : ℤ := (14 - (d.month + 1)) / 12
    let y : ℤ := d.fullYear + 4800 - a
    let m : ℤ := (d.month + 1) + 12 * a - 3
    let jd0 : ℤ := d.date + (153 * m + 2) / 5 + 365 * y + y / 4 - y / 100 + y / 400 - 32045
    let hours : ℝ := (d.hours : ℝ) + (d.minutes : ℝ) / 60 + (d.seconds : ℝ) / 3600
    (jd0 : ℝ) + hours / 24 - 0.5

/-- `centuriesSinceJ2000` of `orbitalMath.ts` (computed but unused by
`calculatePlanetPosition`). -/
noncomputable def centuriesSinceJ2000 (julianDay : ℝ) : ℝ :=
  (julianDay - 2451545.0) / 36525

/-- One Newton-Raphson correction of `solveKepler`:
`delta = (M - E + e * sin E) / (1 - e * cos E)`. -/
noncomputable def kepDelta (M e E : ℝ) : ℝ :=
  (M - E + e * Real.sin E) / (1 - e * Real.cos E)

/-- The `do`/`while` loop of `solveKepler`, with explicit fuel: each call
computes `delta` from the current iterate, adds it, and returns the updated
iterate as soon as `|delta| ≤ tolerance`.  `none` means the loop is still
running after `fuel` further iterations. -/
noncomputable def kepIter (M e tolerance : ℝ) : ℕ → ℝ → Option ℝ
  | fuel, E =>
    let delta := kepDelta M e E
    if |delta| ≤ tolerance then some (E + delta)
    else
      match fuel with
      | 0 => none
      | n + 1 => kepIter M e tolerance n (E + delta)

/-- `solveKepler` of `orbitalMath.ts` (initial guess `E = M`), with fuel. -/
noncomputable def solveKepler (M e tolerance : ℝ) (fuel : ℕ) : Option ℝ :=
  kepIter M e tolerance fuel M

/-- `calculatePlanetPosition` of `orbitalMath.ts`.  Its first statement
logs `spaceTime.date.toISOString()`, which throws for the invalid-date
sentinel, and the `catch` then returns the origin: that reachable error
path is the first branch below.  The object-validity and NaN guards of the
source are vacuous in the typed real-number model, and the final
non-finiteness fallback to the origin can never fire; the rest of the
diagnostic logging is dropped.  The result is `none` exactly when the
embedded Kepler loop does not finish within `fuel` iterations (in which
case the source would not return at all). -/
noncomputable def calculatePlanetPosition (fuel : ℕ) (planet : Planet)
    (spaceTime : SpaceTime) : Option OrbitalPosition :=
  if spaceTime.date.valid = false then some ⟨0, 0, 0⟩
  else if planet.semiMajorAxis = 0 then some ⟨0, 0, 0⟩
  else
    let M0 := planet.meanAnomaly +
      360 * (spaceTime.julianDay - 2451545.0) / planet.orbitalPeriod
    let M := jsRem M0 360
    match solveKepler (degToRad M) planet.eccentricity 1e-8 fuel with
    | none => none
    | some E =>
      let r := planet.semiMajorAxis * (1 - planet.eccentricity * Real.cos E)
      let nu := 2 * Real.arctan (Real.sqrt
        ((1 + planet.eccentricity) / (1 - planet.eccentricity)) * Real.tan (E / 2))
      let argumentOfLatitude := degToRad planet.argumentOfPeriapsis + nu
      let sinOmega := Real.sin (degToRad planet.longitudeOfAscendingNode)
      let cosOmega := Real.cos (degToRad planet.longitudeOfAscendingNode)
      let sinI := Real.sin (degToRad planet.inclination)
      let cosI := Real.cos (degToRad planet.inclination)
      let sinU := Real.sin argumentOfLatitude
      let cosU := Real.cos argumentOfLatitude
      some ⟨r * (cosOmega * cosU - sinOmega * sinU * cosI),
            r * (sinOmega * cosU + cosOmega * sinU * cosI),
            r * sinU * sinI⟩

/-- `calculateRelativePosition` of `planetaryTransforms.ts`: the
componentwise difference `position(B) - position(A)`; defined when both
positions are. -/
noncomputable def calculateRelativePosition (fuel : ℕ) (planetA planetB : Planet)
    (spaceTime : SpaceTime) : Option OrbitalPosition :=
  match calculatePlanetPosition fuel planetA spaceTime,
        calculatePlanetPosition fuel planetB spaceTime with
  | some posA, some posB => some ⟨posB.x - posA.x, posB.y - posA.y, posB.z - posA.z⟩
  | _, _ => none

/-- Return type of `getOrbitalEllipse`. -/
structure OrbitalEllipse where
  a : ℝ
  b : ℝ
  inclination : ℝ
  longitudeOfNode : ℝ
  argumentOfPeriapsis : ℝ

/-- `getOrbitalEllipse` of `orbitalMath.ts`. -/
noncomputable def getOrbitalEllipse (planet : Planet) : OrbitalEllipse where
  a := planet.semiMajorAxis
  b := planet.semiMajorAxis *
    Real.sqrt (1 - planet.eccentricity * planet.eccentricity)
  inclination := planet.inclination * π / 180
  longitudeOfNode := planet.longitudeOfAscendingNode * π / 180
  argumentOfPeriapsis := planet.argumentOfPeriapsis * π / 180

/-- The rotation sequence applied to each in-plane sample `(x, y)` inside
the loop of `generateOrbitalPath`: argument of periapsis about Z, then
inclination about X, then longitude of ascending node about Z. -/
noncomputable def pathRotate (ellipse : OrbitalEllipse) (x y : ℝ) : THREE.Vector3 :=
  let cosW := Real.cos ellipse.argumentOfPeriapsis
  let sinW := Real.sin ellipse.argumentOfPeriapsis
  let xRotated := x * cosW - y * sinW
  let yRotated := x * sinW + y * cosW
  let cosI := Real.cos ellipse.inclination
  let sinI := Real.sin ellipse.inclination
  let xFinal := xRotated
  let yFinal := yRotated * cosI
  let zFinal := yRotated * sinI
  let cosOmega := Real.cos ellipse.longitudeOfNode
  let sinOmega := Real.sin ellipse.longitudeOfNode
  ⟨xFinal * cosOmega - yFinal * sinOmega,
   xFinal * sinOmega + yFinal * cosOmega,
   zFinal⟩

/-- The sample of `generateOrbitalPath` at loop index `i` out of
`segments`: angle `(i / segments) * 2π`, in-plane point
`(a cos angle, b sin angle)`, then the three rotations. -/
noncomputable def pathPoint (planet : Planet) (segments i : ℕ) : THREE.Vector3 :=
  let ellipse := getOrbitalEllipse planet
  let angle := ((i : ℝ) / (segments : ℝ)) * 2 * π
  pathRotate ellipse (ellipse.a * Real.cos angle) (ellipse.b * Real.sin angle)

/-- `generateOrbitalPath` of `orbitalMath.ts`: the loop runs
`i = 0, …, segments` inclusive, pushing one rotated sample per index. -/
noncomputable def generateOrbitalPath (planet : Planet) (segments : ℕ) : List THREE.Vector3 :=
  (List.range (segments + 1)).map (fun i => pathPoint planet segments i)

/-- `calculatePerihelionPosition` of `orbitalMath.ts`, line for line: note
that steps 2 and 3 of the source use `point.y` (the original y-coordinate,
which is 0) rather than the y-coordinate produced by the argument-of-
periapsis rotation. -/
noncomputable def calculatePerihelionPosition (planet : Planet) : THREE.Vector3 :=
  let point : THREE.Vector3 := ⟨planet.semiMajorAxis * (1 - planet.eccentricity), 0, 0⟩
  let ellipse := getOrbitalEllipse planet
  let cosW := Real.cos ellipse.argumentOfPeriapsis
  let sinW := Real.sin ellipse.argumentOfPeriapsis
  let x1 := point.x * cosW - point.y * sinW
  let cosI := Real.cos ellipse.inclination
  let sinI := Real.sin ellipse.inclination
  let y2 := point.y * cosI
  let z2 := point.y * sinI
  let cosOmega := Real.cos ellipse.longitudeOfNode
  let sinOmega := Real.sin ellipse.longitudeOfNode
  let xFinal := x1 * cosOmega - y2 * sinOmega
  let yFinal := x1 * sinOmega + y2 * cosOmega
  ⟨xFinal, yFinal, z2⟩

/-- Euclidean magnitude of a position. -/
noncomputable def OrbitalPosition.mag (p : OrbitalPosition) : ℝ :=
  Real.sqrt (p.x ^ 2 + p.y ^ 2 + p.z ^ 2)

/-! ### Concrete sample data (from `planetData.ts` and the test suite) -/

/-- The Sun object built in the test suite: `semiMajorAxis = 0`. -/
noncomputable def sunPlanet : Planet :=
  ⟨"Sun", 0, 0, 0, 0, 0, 0, 0, 696340, "#FFD700"⟩

/-- A second central body, sharing the Sun's orbital fields. -/
noncomputable def sunVariant : Planet :=
  ⟨"Sol", 0, 0, 0, 0, 0, 0, 0, 1, "#FFFFFF"⟩

/-- The Earth entry of `PLANETS` in `planetData.ts`. -/
noncomputable def earthPlanet : Planet :=
  ⟨"Earth", 1.5, 0.016708, 0, 348.739, 114.207, 357.517, 365.256, 6371.0, "#6B93D6"⟩

/-- A copy of the Earth entry with different non-orbital fields. -/
noncomputable def earthVariant : Planet :=
  ⟨"Earth2", 1.5, 0.016708, 0, 348.739, 114.207, 357.517, 365.256, 1, "#000000"⟩

/-- A circular (`e = 0`) orbit with all angles zero, at the catalog's Earth
distance and period. -/
noncomputable def circularPlanet : Planet :=
  ⟨"Circular", 1.5, 0, 0, 0, 0, 0, 365.256, 1, "#123456"⟩

/-- The J2000 epoch calendar date, 2000-01-01T12:00:00 UTC. -/
def epochDate : JSDate := ⟨true, 2000, 0, 1, 12, 0, 0⟩

/-- An arbitrary other valid calendar date. -/
def otherDate : JSDate := ⟨true, 2024, 5, 15, 3, 30, 0⟩

/-- The invalid-date sentinel (`new Date('invalid')`). -/
def invalidDate : JSDate := ⟨false, 0, 0, 0, 0, 0, 0⟩

/-- The J2000 instant used by the test suite. -/
noncomputable def epochTime : SpaceTime := ⟨epochDate, 2451545.0⟩

/-- The J2000 Julian Day paired with a different calendar field. -/
noncomputable def epochTimeVariant : SpaceTime := ⟨otherDate, 2451545.0⟩

/-! ### Claims -/

/-- Claim C4: for every `elements` with `semiMajorAxis = 0`,
`calculatePlanetPosition` returns the origin for every instant and every
fuel, before any other field or the Julian Day is inspected. -/
theorem calculatePlanetPosition_zero_axis (fuel : ℕ) (planet : Planet)
    (st : SpaceTime) (h : planet.semiMajorAxis = 0) :
    calculatePlanetPosition fuel planet st = some ⟨0, 0, 0⟩ := by
  simp [calculatePlanetPosition, h]

/-- Witness for C4 at the test suite's Sun object. -/
theorem calculatePlanetPosition_zero_axis_witness :
    sunPlanet.semiMajorAxis = 0 ∧
      calculatePlanetPosition 0 sunPlanet epochTime = some ⟨0, 0, 0⟩ :=
  ⟨rfl, calculatePlanetPosition_zero_axis 0 sunPlanet epochTime rfl⟩

/-- Claim C7: `dateToJulianDay` returns exactly the J2000 constant
`2451545.0` on the invalid-date sentinel (and the non-finite-result guard of
the source is vacuous in the real-number model). -/
theorem dateToJulianDay_invalid_fallback (d : JSDate) (h : d.valid = false) :
    dateToJulianDay d = 2451545.0 := by
  simp [dateToJulianDay, h]

/-- Witness for C7 at a concrete invalid date. -/
theorem dateToJulianDay_invalid_fallback_witness :
    invalidDate.valid = false ∧ dateToJulianDay invalidDate = 2451545.0 :=
  ⟨rfl, dateToJulianDay_invalid_fallback invalidDate rfl⟩

/-- Claim C9: `calculatePlanetPosition` is deterministic; its result depends
only on the seven orbital-element fields it reads, the Julian Day of the
instant, and the validity flag of the instant's calendar date (through the
logging throw path) - not on `name`, `radius`, `color`, the calendar
fields, or any hidden state - so two calls with identical inputs give
identical outputs. -/
theorem calculatePlanetPosition_deterministic (fuel : ℕ) (pA pB : Planet)
    (sA sB : SpaceTime)
    (h1 : pA.semiMajorAxis = pB.semiMajorAxis)
    (h2 : pA.eccentricity = pB.eccentricity)
    (h3 : pA.inclination = pB.inclination)
    (h4 : pA.longitudeOfAscendingNode = pB.longitudeOfAscendingNode)
    (h5 : pA.argumentOfPeriapsis = pB.argumentOfPeriapsis)
    (h6 : pA.meanAnomaly = pB.meanAnomaly)
    (h7 : pA.orbitalPeriod = pB.orbitalPeriod)
    (hjd : sA.julianDay = sB.julianDay)
    (hdv : sA.date.valid = sB.date.valid) :
    calculatePlanetPosition fuel pA sA = calculatePlanetPosition fuel pB sB := by
  simp only [calculatePlanetPosition, h1, h2, h3, h4, h5, h6, h7, hjd, hdv]

/-- Witness for C9: the Earth catalog entry and a copy differing in name,
radius, color and calendar date give the same position. -/
theorem calculatePlanetPosition_deterministic_witness :
    calculatePlanetPosition 0 earthPlanet epochTime =
      calculatePlanetPosition 0 earthVariant epochTimeVariant :=
  calculatePlanetPosition_deterministic 0 earthPlanet earthVariant epochTime
    epochTimeVariant rfl rfl rfl rfl rfl rfl rfl rfl rfl

/-- Claim C10: the z-coordinate of `calculatePerihelionPosition` is exactly
zero for every planet: steps 2 and 3 of the source rotate the original
`point.y = 0`, so `z2 = 0` regardless of the inclination. -/
theorem calculatePerihelionPosition_z_eq_zero (planet : Planet) :
    (calculatePerihelionPosition planet).z = 0 := by
  simp [calculatePerihelionPosition]

/-- Claim C8: `calculateRelativePosition A B` is the componentwise
difference `position(B) - position(A)`, and swapping the arguments negates
each component. -/
theorem calculateRelativePosition_diff_antisymm (fuel : ℕ)
    (planetA planetB : Planet) (st : SpaceTime) (posA posB : OrbitalPosition)
    (hA : calculatePlanetPosition fuel planetA st = some posA)
    (hB : calculatePlanetPosition fuel planetB st = some posB) :
    calculateRelativePosition fuel planetA planetB st =
      some ⟨posB.x - posA.x, posB.y - posA.y, posB.z - posA.z⟩ ∧
    calculateRelativePosition fuel planetB planetA st =
      some ⟨-(posB.x - posA.x), -(posB.y - posA.y), -(posB.z - posA.z)⟩ := by
  constructor
  · simp [calculateRelativePosition, hA, hB]
  · simp only [calculateRelativePosition, hA, hB]
    norm_num

/-- Witness for C8 at two central bodies (both fixed at the origin). -/
theorem calculateRelativePosition_diff_antisymm_witness :
    calculatePlanetPosition 0 sunPlanet epochTime = some ⟨0, 0, 0⟩ ∧
    calculatePlanetPosition 0 sunVariant epochTime = some ⟨0, 0, 0⟩ ∧
    calculateRelativePosition 0 sunPlanet sunVariant epochTime =
      some ⟨0 - 0, 0 - 0, 0 - 0⟩ ∧
    calculateRelativePosition 0 sunVariant sunPlanet epochTime =
      some ⟨-(0 - 0), -(0 - 0), -(0 - 0)⟩ := by
  have hA : calculatePlanetPosition 0 sunPlanet epochTime = some ⟨0, 0, 0⟩ := by
    simp [calculatePlanetPosition, sunPlanet, epochTime, epochDate]
  have hB : calculatePlanetPosition 0 sunVariant epochTime = some ⟨0, 0, 0⟩ := by
    simp [calculatePlanetPosition, sunVariant, epochTime, epochDate]
  exact ⟨hA, hB,
    calculateRelativePosition_diff_antisymm 0 sunPlanet sunVariant epochTime
      ⟨0, 0, 0⟩ ⟨0, 0, 0⟩ hA hB⟩

/-- The last path sample equals the first: the loop angle at `i = N` is
`2π` and at `i = 0` is `0`, and sine and cosine agree there. -/
theorem pathPoint_self_eq_zero {planet : Planet} {N : ℕ} (hN : (N : ℝ) ≠ 0) :
    pathPoint planet N N = pathPoint planet N 0 := by
  simp only [pathPoint]
  norm_num [div_self hN, Real.cos_two_pi, Real.sin_two_pi]

/-- Claim C6: for `N ≥ 3`, `generateOrbitalPath` returns exactly `N + 1`
points whose first and last points coincide. -/
theorem generateOrbitalPath_closed (planet : Planet) (N : ℕ) (h : 3 ≤ N) :
    (generateOrbitalPath planet N).length = N + 1 ∧
    ∃ q, (generateOrbitalPath planet N).head? = some q ∧
      (generateOrbitalPath planet N).getLast? = some q := by
  have hN : (N : ℝ) ≠ 0 := Nat.cast_ne_zero.mpr (by omega)
  refine ⟨by simp [generateOrbitalPath], pathPoint planet N 0, ?_, ?_⟩
  · simp [generateOrbitalPath, List.range_succ_eq_map]
  · rw [generateOrbitalPath, List.range_succ, List.map_append]
    simp [pathPoint_self_eq_zero hN]

/-- Witness for C6 at the Earth catalog entry with `N = 4`. -/
theorem generateOrbitalPath_closed_witness :
    3 ≤ 4 ∧
    ((generateOrbitalPath earthPlanet 4).length = 4 + 1 ∧
    ∃ q, (generateOrbitalPath earthPlanet 4).head? = some q ∧
      (generateOrbitalPath earthPlanet 4).getLast? = some q) :=
  ⟨by norm_num, generateOrbitalPath_closed earthPlanet 4 (by norm_num)⟩

/-- A planet with `a = 1`, `e = 0`, inclination 90°, node 0°, argument of
periapsis 90°: the failing input for the perihelion rotation claim. -/
noncomputable def tiltedPlanet : Planet :=
  ⟨"Tilted", 1, 0, 90, 0, 90, 0, 1, 1, "#FFFFFF"⟩

/-- Claim C1 (divergence): at `tiltedPlanet` the source's
`calculatePerihelionPosition` returns the origin, while applying the actual
rotation sequence of `generateOrbitalPath` to the pre-rotation perihelion
point `(a(1-e), 0, 0)` gives `(0, 0, 1)`, which is also the θ = 0 path
sample; so the claimed equality fails on the code (the source drops the
y-coordinate produced by the argument-of-periapsis rotation). -/
theorem calculatePerihelionPosition_rotation_mismatch :
    calculatePerihelionPosition tiltedPlanet = ⟨0, 0, 0⟩ ∧
    pathRotate (getOrbitalEllipse tiltedPlanet)
      (tiltedPlanet.semiMajorAxis * (1 - tiltedPlanet.eccentricity)) 0 = ⟨0, 0, 1⟩ ∧
    (generateOrbitalPath tiltedPlanet 4).head? = some ⟨0, 0, 1⟩ ∧
    calculatePerihelionPosition tiltedPlanet ≠
      pathRotate (getOrbitalEllipse tiltedPlanet)
        (tiltedPlanet.semiMajorAxis * (1 - tiltedPlanet.eccentricity)) 0 := by
  have h90 : (90 : ℝ) * π / 180 = π / 2 := by ring
  have h0 : (0 : ℝ) * π / 180 = 0 := by ring
  have hper : calculatePerihelionPosition tiltedPlanet = ⟨0, 0, 0⟩ := by
    simp only [calculatePerihelionPosition, getOrbitalEllipse, tiltedPlanet]
    rw [h90, h0]
    norm_num [Real.cos_pi_div_two, Real.sin_pi_div_two]
  have hrot : pathRotate (getOrbitalEllipse tiltedPlanet)
      (tiltedPlanet.semiMajorAxis * (1 - tiltedPlanet.eccentricity)) 0 = ⟨0, 0, 1⟩ := by
    simp only [pathRotate, getOrbitalEllipse, tiltedPlanet]
    rw [h90, h0]
    norm_num [Real.cos_pi_div_two, Real.sin_pi_div_two]
  refine ⟨hper, hrot, ?_, ?_⟩
  · have hhead : (generateOrbitalPath tiltedPlanet 4).head? =
        some (pathPoint tiltedPlanet 4 0) := by
      simp [generateOrbitalPath, List.range_succ_eq_map]
    rw [hhead]
    have : pathPoint tiltedPlanet 4 0 = ⟨0, 0, 1⟩ := by
      simp only [pathPoint, getOrbitalEllipse, tiltedPlanet, pathRotate]
      rw [h90, h0]
      norm_num [Real.cos_pi_div_two, Real.sin_pi_div_two]
    rw [this]
  · rw [hper, hrot]
    simp only [ne_eq, THREE.Vector3.mk.injEq]
    norm_num

/-- Squared-norm identity for the classical orbital rotation: the three
rotation factors preserve the distance `r`. -/
theorem rot_sq_identity (r cosOm sinOm cosU sinU cosI sinI : ℝ)
    (h1 : sinOm ^ 2 + cosOm ^ 2 = 1) (h2 : sinU ^ 2 + cosU ^ 2 = 1)
    (h3 : sinI ^ 2 + cosI ^ 2 = 1) :
    (r * (cosOm * cosU - sinOm * sinU * cosI)) ^ 2 +
      (r * (sinOm * cosU + cosOm * sinU * cosI)) ^ 2 +
      (r * sinU * sinI) ^ 2 = r ^ 2 := by
  linear_combination (r ^ 2 * (cosU ^ 2 + sinU ^ 2 * cosI ^ 2)) * h1 +
    r ^ 2 * h2 + (r ^ 2 * sinU ^ 2) * h3

/-- Claim C2: whenever `calculatePlanetPosition` returns a position for
elements with `a > 0` and `0 ≤ e < 1`, at an instant whose calendar date is
valid, its Euclidean magnitude lies between the perihelion distance
`a(1-e)` and the aphelion distance `a(1+e)`.  The valid-date hypothesis is
needed: see `calculatePlanetPosition_mag_bounds_counterexample`. -/
theorem calculatePlanetPosition_mag_bounds (fuel : ℕ) (planet : Planet)
    (st : SpaceTime) (pos : OrbitalPosition)
    (hdate : st.date.valid = true)
    (ha : 0 < planet.semiMajorAxis) (he0 : 0 ≤ planet.eccentricity)
    (he1 : planet.eccentricity < 1)
    (hcalc : calculatePlanetPosition fuel planet st = some pos) :
    planet.semiMajorAxis * (1 - planet.eccentricity) ≤ pos.mag ∧
      pos.mag ≤ planet.semiMajorAxis * (1 + planet.eccentricity) := by
  simp only [calculatePlanetPosition, hdate, Bool.true_eq_false, if_false,
    if_neg ha.ne'] at hcalc
  set a := planet.semiMajorAxis with hadef
  set e := planet.eccentricity with hedef
  cases hE : solveKepler (degToRad (jsRem (planet.meanAnomaly +
      360 * (st.julianDay - 2451545.0) / planet.orbitalPeriod) 360)) e 1e-8 fuel with
  | none => rw [hE] at hcalc; simp at hcalc
  | some E =>
    rw [hE] at hcalc
    simp only [Option.some.injEq] at hcalc
    set r := a * (1 - e * Real.cos E) with hrdef
    have hr0 : a * (1 - e) ≤ r := by
      have h1 : Real.cos E ≤ 1 := Real.cos_le_one E
      have h2 : 0 ≤ a * e * (1 - Real.cos E) :=
        mul_nonneg (mul_nonneg ha.le he0) (by linarith)
      rw [hrdef]
      nlinarith [h2]
    have hr1 : r ≤ a * (1 + e) := by
      have h1 : -1 ≤ Real.cos E := Real.neg_one_le_cos E
      have h2 : 0 ≤ a * e * (1 + Real.cos E) :=
        mul_nonneg (mul_nonneg ha.le he0) (by linarith)
      rw [hrdef]
      nlinarith [h2]
    have hrpos : 0 ≤ r :=
      le_trans (mul_nonneg ha.le (by linarith)) hr0
    have hmag : pos.mag = r := by
      rw [← hcalc]
      show Real.sqrt _ = r
      have hsq : (r * (Real.cos (degToRad planet.longitudeOfAscendingNode) *
            Real.cos (degToRad planet.argumentOfPeriapsis +
              2 * Real.arctan (Real.sqrt ((1 + e) / (1 - e)) * Real.tan (E / 2))) -
          Real.sin (degToRad planet.longitudeOfAscendingNode) *
            Real.sin (degToRad planet.argumentOfPeriapsis +
              2 * Real.arctan (Real.sqrt ((1 + e) / (1 - e)) * Real.tan (E / 2))) *
            Real.cos (degToRad planet.inclination))) ^ 2 +
          (r * (Real.sin (degToRad planet.longitudeOfAscendingNode) *
            Real.cos (degToRad planet.argumentOfPeriapsis +
              2 * Real.arctan (Real.sqrt ((1 + e) / (1 - e)) * Real.tan (E / 2))) +
          Real.cos (degToRad planet.longitudeOfAscendingNode) *
            Real.sin (degToRad planet.argumentOfPeriapsis +
              2 * Real.arctan (Real.sqrt ((1 + e) / (1 - e)) * Real.tan (E / 2))) *
            Real.cos (degToRad planet.inclination))) ^ 2 +
          (r * Real.sin (degToRad planet.argumentOfPeriapsis +
              2 * Real.arctan (Real.sqrt ((1 + e) / (1 - e)) * Real.tan (E / 2))) *
            Real.sin (degToRad planet.inclination)) ^ 2 = r ^ 2 :=
        rot_sq_identity r _ _ _ _ _ _ (Real.sin_sq_add_cos_sq _)
          (Real.sin_sq_add_cos_sq _) (Real.sin_sq_add_cos_sq _)
      rw [hsq, Real.sqrt_sq hrpos]
    rw [hmag]
    exact ⟨hr0, hr1⟩

/-- The circular test orbit at the J2000 instant evaluates to `(1.5, 0, 0)`:
the mean anomaly is 0, the Kepler loop returns `E = 0` on its first
iteration, and all rotation angles are zero. -/
theorem circularPlanet_position_at_epoch :
    calculatePlanetPosition 0 circularPlanet epochTime = some ⟨1.5, 0, 0⟩ := by
  have h360 : ((0 : ℝ)) / 360 = 0 := by norm_num
  simp only [calculatePlanetPosition, circularPlanet, epochTime, epochDate,
    solveKepler, kepIter, kepDelta, jsRem, jsTrunc, degToRad]
  norm_num [Real.tan_zero, Real.arctan_zero]

/-- Witness for C2 at the circular test orbit and the J2000 instant. -/
theorem calculatePlanetPosition_mag_bounds_witness :
    epochTime.date.valid = true ∧
    0 < circularPlanet.semiMajorAxis ∧ 0 ≤ circularPlanet.eccentricity ∧
    circularPlanet.eccentricity < 1 ∧
    calculatePlanetPosition 0 circularPlanet epochTime = some ⟨1.5, 0, 0⟩ ∧
    (circularPlanet.semiMajorAxis * (1 - circularPlanet.eccentricity) ≤
        OrbitalPosition.mag ⟨1.5, 0, 0⟩ ∧
      OrbitalPosition.mag ⟨1.5, 0, 0⟩ ≤
        circularPlanet.semiMajorAxis * (1 + circularPlanet.eccentricity)) :=
  ⟨rfl, by norm_num [circularPlanet], by norm_num [circularPlanet],
   by norm_num [circularPlanet], circularPlanet_position_at_epoch,
   calculatePlanetPosition_mag_bounds 0 circularPlanet epochTime ⟨1.5, 0, 0⟩
     rfl (by norm_num [circularPlanet]) (by norm_num [circularPlanet])
     (by norm_num [circularPlanet]) circularPlanet_position_at_epoch⟩

/-- Claim C2 (counterexample to the original claim): at the catalog Earth
elements and an instant pairing the invalid-date sentinel with the finite
Julian Day `2451545.0`, the source's first debug log throws
(`date.toISOString()` on an Invalid Date) and the `catch` returns the
origin, whose magnitude 0 is strictly below the claimed lower bound
`a(1-e)` - even though `a > 0`, `0 ≤ e < 1` and the Julian Day is finite. -/
theorem calculatePlanetPosition_mag_bounds_counterexample :
    0 < earthPlanet.semiMajorAxis ∧ 0 ≤ earthPlanet.eccentricity ∧
    earthPlanet.eccentricity < 1 ∧
    calculatePlanetPosition 0 earthPlanet ⟨invalidDate, 2451545.0⟩ =
      some ⟨0, 0, 0⟩ ∧
    OrbitalPosition.mag ⟨0, 0, 0⟩ <
      earthPlanet.semiMajorAxis * (1 - earthPlanet.eccentricity) := by
  refine ⟨by norm_num [earthPlanet], by norm_num [earthPlanet],
    by norm_num [earthPlanet], ?_, ?_⟩
  · simp [calculatePlanetPosition, invalidDate]
  · have hmag : OrbitalPosition.mag ⟨0, 0, 0⟩ = 0 := by
      simp [OrbitalPosition.mag]
    rw [hmag]
    norm_num [earthPlanet]

/-- Quadratic bound on the sine remainder: `|sin h - h| ≤ h²/4` on `[-1,1]`. -/
theorem abs_sin_sub_self_le {h : ℝ} (hh : |h| ≤ 1) :
    |Real.sin h - h| ≤ h ^ 2 / 4 := by
  rcases lt_trichotomy h 0 with hneg | rfl | hpos
  · have h1 : -h ≤ 1 := by rw [abs_of_neg hneg] at hh; linarith
    have h0 : 0 < -h := by linarith
    have hu := Real.sin_lt h0
    have hl := Real.sin_gt_sub_cube h0 h1
    rw [Real.sin_neg] at hu hl
    rw [abs_le]
    constructor <;> nlinarith
  · simp
  · have h1 : h ≤ 1 := by rw [abs_of_pos hpos] at hh; linarith
    have hu := Real.sin_lt hpos
    have hl := Real.sin_gt_sub_cube hpos h1
    rw [abs_le]
    constructor <;> nlinarith

/-- Quadratic bound on the cosine remainder: `|1 - cos h| ≤ h²/2`. -/
theorem abs_one_sub_cos_le (h : ℝ) : |1 - Real.cos h| ≤ h ^ 2 / 2 := by
  have h1 := Real.cos_le_one h
  have h2 := Real.one_sub_sq_div_two_le_cos (x := h)
  rw [abs_le]
  constructor <;> linarith

/-- First-order Taylor bound for sine around `x`, for steps `|h| ≤ 1`. -/
theorem sin_add_taylor_bound (x h : ℝ) (hh : |h| ≤ 1) :
    |Real.sin (x + h) - Real.sin x - h * Real.cos x| ≤ 3 / 4 * h ^ 2 := by
  have hrw : Real.sin (x + h) - Real.sin x - h * Real.cos x =
      Real.sin x * (Real.cos h - 1) + Real.cos x * (Real.sin h - h) := by
    rw [Real.sin_add]; ring
  rw [hrw]
  have hs : |Real.sin x * (Real.cos h - 1)| ≤ h ^ 2 / 2 := by
    rw [abs_mul]
    have b1 : |Real.sin x| ≤ 1 := Real.abs_sin_le_one x
    have b2 : |Real.cos h - 1| ≤ h ^ 2 / 2 := by
      rw [abs_sub_comm]; exact abs_one_sub_cos_le h
    calc |Real.sin x| * |Real.cos h - 1| ≤ 1 * (h ^ 2 / 2) :=
          mul_le_mul b1 b2 (abs_nonneg _) zero_le_one
      _ = h ^ 2 / 2 := one_mul _
  have hc : |Real.cos x * (Real.sin h - h)| ≤ h ^ 2 / 4 := by
    rw [abs_mul]
    have b1 : |Real.cos x| ≤ 1 := Real.abs_cos_le_one x
    have b2 : |Real.sin h - h| ≤ h ^ 2 / 4 := abs_sin_sub_self_le hh
    calc |Real.cos x| * |Real.sin h - h| ≤ 1 * (h ^ 2 / 4) :=
          mul_le_mul b1 b2 (abs_nonneg _) zero_le_one
      _ = h ^ 2 / 4 := one_mul _
  calc |Real.sin x * (Real.cos h - 1) + Real.cos x * (Real.sin h - h)| ≤
        |Real.sin x * (Real.cos h - 1)| + |Real.cos x * (Real.sin h - h)| :=
        abs_add _ _
    _ ≤ h ^ 2 / 2 + h ^ 2 / 4 := add_le_add hs hc
    _ = 3 / 4 * h ^ 2 := by ring

/-- The denominator of a Newton-Raphson correction is bounded below by
`1 - e` for elliptic eccentricities. -/
theorem kepler_denom_pos {e : ℝ} (he0 : 0 ≤ e) (he1 : e < 1) (E : ℝ) :
    0 < 1 - e * Real.cos E := by
  have h1 : e * Real.cos E ≤ e := mul_le_of_le_one_right he0 (Real.cos_le_one E)
  linarith

/-- Algebraic form of the Kepler residual after one Newton step. -/
theorem residual_after_step (M e E : ℝ) (hne : 1 - e * Real.cos E ≠ 0) :
    E + kepDelta M e E - e * Real.sin (E + kepDelta M e E) - M =
      e * (kepDelta M e E * Real.cos E -
        (Real.sin (E + kepDelta M e E) - Real.sin E)) := by
  have h : kepDelta M e E * (1 - e * Real.cos E) = M - E + e * Real.sin E :=
    div_mul_cancel₀ _ hne
  linear_combination h

/-- If the final Newton correction is at most `tol ≤ 1` in magnitude, the
updated iterate satisfies Kepler's equation to within `tol`. -/
theorem abs_residual_after_step (M e E tol : ℝ) (he0 : 0 ≤ e) (he1 : e < 1)
    (htol : |kepDelta M e E| ≤ tol) (htol1 : tol ≤ 1) :
    |E + kepDelta M e E - e * Real.sin (E + kepDelta M e E) - M| ≤ tol := by
  have hne : 1 - e * Real.cos E ≠ 0 := (kepler_denom_pos he0 he1 E).ne'
  have habs1 : |kepDelta M e E| ≤ 1 := le_trans htol htol1
  have htol0 : 0 ≤ tol := le_trans (abs_nonneg _) htol
  rw [residual_after_step M e E hne, abs_mul, abs_of_nonneg he0]
  have key : |kepDelta M e E * Real.cos E -
      (Real.sin (E + kepDelta M e E) - Real.sin E)| ≤
      3 / 4 * kepDelta M e E ^ 2 := by
    have h3 := sin_add_taylor_bound E (kepDelta M e E) habs1
    have hrw : kepDelta M e E * Real.cos E -
        (Real.sin (E + kepDelta M e E) - Real.sin E) =
        -(Real.sin (E + kepDelta M e E) - Real.sin E -
          kepDelta M e E * Real.cos E) := by ring
    rw [hrw, abs_neg]
    exact h3
  have hsq : kepDelta M e E ^ 2 ≤ tol := by
    have : kepDelta M e E ^ 2 ≤ tol ^ 2 := by
      rw [← sq_abs]
      exact pow_le_pow_left₀ (abs_nonneg _) htol 2
    nlinarith
  calc e * |kepDelta M e E * Real.cos E -
        (Real.sin (E + kepDelta M e E) - Real.sin E)| ≤
        1 * (3 / 4 * kepDelta M e E ^ 2) :=
        mul_le_mul he1.le key (abs_nonneg _) zero_le_one
    _ = 3 / 4 * kepDelta M e E ^ 2 := one_mul _
    _ ≤ tol := by nlinarith [sq_nonneg (kepDelta M e E)]

/-- Any value returned by the embedded Newton loop satisfies Kepler's
equation to within the tolerance, for elliptic eccentricities and
tolerances at most 1. -/
theorem kepIter_some_residual (M e tol : ℝ) (he0 : 0 ≤ e) (he1 : e < 1)
    (htol1 : tol ≤ 1) :
    ∀ fuel E₀ E, kepIter M e tol fuel E₀ = some E →
      |E - e * Real.sin E - M| ≤ tol := by
  intro fuel
  induction fuel with
  | zero =>
    intro E₀ E h
    rw [kepIter] at h
    split_ifs at h with hd
    · have hE : E = E₀ + kepDelta M e E₀ := by
        injection h with h'
        exact h'.symm
      subst hE
      exact abs_residual_after_step M e E₀ tol he0 he1 hd htol1
  | succ n ih =>
    intro E₀ E h
    rw [kepIter] at h
    split_ifs at h with hd
    · have hE : E = E₀ + kepDelta M e E₀ := by
        injection h with h'
        exact h'.symm
      subst hE
      exact abs_residual_after_step M e E₀ tol he0 he1 hd htol1
    · exact ih (E₀ + kepDelta M e E₀) E h

/-- Claim C3: whenever `solveKepler` returns an eccentric anomaly `E` for a
mean anomaly in `[0, 2π)`, an eccentricity in `[0, 0.9]`, and the default
tolerance `1e-8`, substituting `E` into Kepler's equation reproduces the
mean anomaly to within that tolerance. -/
theorem solveKepler_residual_le_tolerance (fuel : ℕ) (M e E : ℝ)
    (hM0 : 0 ≤ M) (hM1 : M < 2 * π) (he0 : 0 ≤ e) (he : e ≤ 0.9)
    (h : solveKepler M e 1e-8 fuel = some E) :
    |E - e * Real.sin E - M| ≤ 1e-8 := by
  have he1 : e < 1 := lt_of_le_of_lt he (by norm_num)
  exact kepIter_some_residual M e 1e-8 he0 he1 (by norm_num) fuel M E h

/-- Witness for C3 at `M = 1`, `e = 0`: the loop converges on its first
iteration with `E = 1`. -/
theorem solveKepler_residual_le_tolerance_witness :
    0 ≤ (1 : ℝ) ∧ (1 : ℝ) < 2 * π ∧ 0 ≤ (0 : ℝ) ∧ (0 : ℝ) ≤ 0.9 ∧
    solveKepler 1 0 1e-8 0 = some 1 ∧
    |(1 : ℝ) - 0 * Real.sin 1 - 1| ≤ 1e-8 := by
  have hsolve : solveKepler 1 0 1e-8 0 = some 1 := by
    simp [solveKepler, kepIter, kepDelta]
    norm_num
  have hpi : (1 : ℝ) < 2 * π := by nlinarith [Real.pi_gt_three]
  exact ⟨by norm_num, hpi, by norm_num, by norm_num, hsolve,
    solveKepler_residual_le_tolerance 0 1 0 1 (by norm_num) hpi (by norm_num)
      (by norm_num) hsolve⟩

/-- Sine is 1-Lipschitz. -/
theorem abs_sin_sub_sin_le (x y : ℝ) : |Real.sin x - Real.sin y| ≤ |x - y| := by
  rw [Real.sin_sub_sin]
  rw [abs_mul, abs_mul]
  have h1 : |Real.sin ((x - y) / 2)| ≤ |(x - y) / 2| := Real.abs_sin_le_abs
  have h2 : |Real.cos ((x + y) / 2)| ≤ 1 := Real.abs_cos_le_one _
  have h3 : |(x - y) / 2| = |x - y| / 2 := by
    rw [abs_div]
    norm_num
  calc |(2 : ℝ)| * |Real.sin ((x - y) / 2)| * |Real.cos ((x + y) / 2)| ≤
        |(2 : ℝ)| * |(x - y) / 2| * 1 := by
        apply mul_le_mul _ h2 (abs_nonneg _) _
        · exact mul_le_mul_of_nonneg_left h1 (abs_nonneg _)
        · positivity
    _ = |x - y| := by
        rw [h3, abs_two]
        ring

/-- Cosine is 1-Lipschitz. -/
theorem abs_cos_sub_cos_le (x y : ℝ) : |Real.cos x - Real.cos y| ≤ |x - y| := by
  rw [Real.cos_sub_cos]
  rw [abs_mul, abs_mul, abs_neg]
  have h1 : |Real.sin ((x - y) / 2)| ≤ |(x - y) / 2| := Real.abs_sin_le_abs
  have h2 : |Real.sin ((x + y) / 2)| ≤ 1 := Real.abs_sin_le_one _
  have h3 : |(x - y) / 2| = |x - y| / 2 := by
    rw [abs_div]
    norm_num
  calc |(2 : ℝ)| * |Real.sin ((x + y) / 2)| * |Real.sin ((x - y) / 2)| ≤
        |(2 : ℝ)| * 1 * |(x - y) / 2| := by
        apply mul_le_mul _ h1 (abs_nonneg _) _
        · exact mul_le_mul_of_nonneg_left h2 (abs_nonneg _)
        · positivity
    _ = |x - y| := by
        rw [h3, abs_two]
        ring

/-- Base point of a period-2 orbit of the Newton iteration: `b = 1.8027`. -/
noncomputable def cycB : ℝ := 1.8027

/-- The Newton step size of the cycle: `t = tan b ≈ -4.2346`. -/
noncomputable def cycT : ℝ := Real.tan cycB

/-- The mean anomaly of the cycle: `a = b - t`, so that one Newton step
from `a` lands on `b`. -/
noncomputable def cycA : ℝ := cycB - cycT

/-- Denominator of the cycle eccentricity: `D = sin a + t cos a`. -/
noncomputable def cycD : ℝ := Real.sin cycA + cycT * Real.cos cycA

/-- The eccentricity `e = t / D ≈ 0.9733` for which the Newton iteration
started at `M = a` cycles forever between `a` and `b`. -/
noncomputable def cycE : ℝ := cycT / cycD

/-- Doubling step for a sine enclosure (first-quadrant case). -/
theorem interval_twice_sin (u sl su cl cu dl du : ℝ)
    (hs : sl ≤ Real.sin u ∧ Real.sin u ≤ su)
    (hc : cl ≤ Real.cos u ∧ Real.cos u ≤ cu)
    (hsl : 0 ≤ sl) (hcl : 0 ≤ cl)
    (hdl : dl ≤ 2 * sl * cl) (hdu : 2 * su * cu ≤ du) :
    dl ≤ Real.sin (2 * u) ∧ Real.sin (2 * u) ≤ du := by
  rw [Real.sin_two_mul]
  have k1 : 0 ≤ (Real.sin u - sl) * (Real.cos u - cl) :=
    mul_nonneg (sub_nonneg.mpr hs.1) (sub_nonneg.mpr hc.1)
  have k2 : 0 ≤ sl * (Real.cos u - cl) :=
    mul_nonneg hsl (sub_nonneg.mpr hc.1)
  have k3 : 0 ≤ cl * (Real.sin u - sl) :=
    mul_nonneg hcl (sub_nonneg.mpr hs.1)
  have hcu0 : 0 ≤ cu := le_trans hcl (le_trans hc.1 hc.2)
  have hsu0 : 0 ≤ Real.sin u := le_trans hsl hs.1
  have k4 : 0 ≤ (su - Real.sin u) * cu :=
    mul_nonneg (sub_nonneg.mpr hs.2) hcu0
  have k5 : 0 ≤ Real.sin u * (cu - Real.cos u) :=
    mul_nonneg hsu0 (sub_nonneg.mpr hc.2)
  constructor
  · nlinarith [k1, k2, k3]
  · nlinarith [k4, k5]

/-- Doubling step for a cosine enclosure via `cos 2u = 1 - 2 sin² u`. -/
theorem interval_twice_cos (u sl su dl du : ℝ)
    (hs : sl ≤ Real.sin u ∧ Real.sin u ≤ su) (hsl : 0 ≤ sl)
    (hdl : dl ≤ 1 - 2 * su ^ 2) (hdu : 1 - 2 * sl ^ 2 ≤ du) :
    dl ≤ Real.cos (2 * u) ∧ Real.cos (2 * u) ≤ du := by
  rw [Real.cos_two_mul, Real.cos_sq']
  have hsum : 0 ≤ su + Real.sin u :=
    add_nonneg (le_trans hsl (le_trans hs.1 hs.2)) (le_trans hsl hs.1)
  have hsum' : 0 ≤ Real.sin u + sl := add_nonneg (le_trans hsl hs.1) hsl
  have k1 : 0 ≤ (su - Real.sin u) * (su + Real.sin u) :=
    mul_nonneg (sub_nonneg.mpr hs.2) hsum
  have k2 : 0 ≤ (Real.sin u - sl) * (Real.sin u + sl) :=
    mul_nonneg (sub_nonneg.mpr hs.1) hsum'
  constructor
  · nlinarith [k1]
  · nlinarith [k2]

/-- Rigorous enclosure of `sin 1.8027` and `cos 1.8027`, by four angle
doublings from the Taylor bounds at `1.8027 / 16`. -/
theorem cycB_sin_cos_bounds :
    (0.9730280424 : ℝ) ≤ Real.sin cycB ∧ Real.sin cycB ≤ 0.9734402257 ∧
    (-0.2300745931 : ℝ) ≤ Real.cos cycB ∧ Real.cos cycB ≤ -0.2295560838 := by
  have hx : |(0.11266875 : ℝ)| ≤ 1 := by
    rw [abs_of_pos (by norm_num)]
    norm_num
  have hs' := Real.sin_bound hx
  have hc' := Real.cos_bound hx
  rw [abs_of_pos (a := (0.11266875 : ℝ)) (by norm_num), abs_le] at hs' hc'
  have hs0 : (0.1124219829 : ℝ) ≤ Real.sin 0.11266875 ∧
      Real.sin 0.11266875 ≤ 0.1124387688 := by
    constructor <;> nlinarith [hs'.1, hs'.2]
  have hc0 : (0.9936444834 : ℝ) ≤ Real.cos 0.11266875 ∧
      Real.cos 0.11266875 ≤ 0.9936612693 := by
    constructor <;> nlinarith [hc'.1, hc'.2]
  have e1 : (0.2253375 : ℝ) = 2 * 0.11266875 := by norm_num
  have hs1 : (0.2234149662 : ℝ) ≤ Real.sin 0.2253375 ∧
      Real.sin 0.2253375 ≤ 0.2234520995 := by
    rw [e1]
    exact interval_twice_sin _ _ _ _ _ _ _ hs0 hc0 (by norm_num) (by norm_num)
      (by norm_num) (by norm_num)
  have hc1 : (0.9747150465 : ℝ) ≤ Real.cos 0.2253375 ∧
      Real.cos 0.2253375 ≤ 0.9747225956 := by
    rw [e1]
    exact interval_twice_cos _ _ _ _ _ hs0 (by norm_num) (by norm_num) (by norm_num)
  have e2 : (0.450675 : ℝ) = 2 * 0.2253375 := by norm_num
  have hs2 : (0.4355318583 : ℝ) ≤ Real.sin 0.450675 ∧
      Real.sin 0.450675 ≤ 0.4356076209 := by
    rw [e2]
    exact interval_twice_sin _ _ _ _ _ _ _ hs1 hc1 (by norm_num) (by norm_num)
      (by norm_num) (by norm_num)
  have hc2 : (0.9001383184 : ℝ) ≤ Real.cos 0.450675 ∧
      Real.cos 0.450675 ≤ 0.9001715058 := by
    rw [e2]
    exact interval_twice_cos _ _ _ _ _ hs1 (by norm_num) (by norm_num) (by norm_num)
  have e3 : (0.90135 : ℝ) = 2 * 0.450675 := by norm_num
  have hs3 : (0.784077829 : ℝ) ≤ Real.sin 0.90135 ∧
      Real.sin 0.90135 ≤ 0.7842431361 := by
    rw [e3]
    exact interval_twice_sin _ _ _ _ _ _ _ hs2 hc2 (by norm_num) (by norm_num)
      (by norm_num) (by norm_num)
  have hc3 : (0.6204920012 : ℝ) ≤ Real.cos 0.90135 ∧
      Real.cos 0.90135 ≤ 0.6206240009 := by
    rw [e3]
    exact interval_twice_cos _ _ _ _ _ hs2 (by norm_num) (by norm_num) (by norm_num)
  have e4 : cycB = 2 * (0.90135 : ℝ) := by
    unfold cycB
    norm_num
  have hs4 : (0.9730280424 : ℝ) ≤ Real.sin cycB ∧
      Real.sin cycB ≤ 0.9734402257 := by
    rw [e4]
    exact interval_twice_sin _ _ _ _ _ _ _ hs3 hc3 (by norm_num) (by norm_num)
      (by norm_num) (by norm_num)
  have hc4 : (-0.2300745931 : ℝ) ≤ Real.cos cycB ∧
      Real.cos cycB ≤ -0.2295560838 := by
    rw [e4]
    exact interval_twice_cos _ _ _ _ _ hs3 (by norm_num) (by norm_num) (by norm_num)
  exact ⟨hs4.1, hs4.2, hc4.1, hc4.2⟩

/-- Rigorous enclosure of the Newton cycle step `t = tan 1.8027`. -/
theorem cycT_bounds : (-4.2405333355 : ℝ) ≤ cycT ∧ cycT ≤ -4.2291851059 := by
  obtain ⟨hsl, hsu, hcl, hcu⟩ := cycB_sin_cos_bounds
  have hcneg : Real.cos cycB < 0 := lt_of_le_of_lt hcu (by norm_num)
  have ht : cycT = Real.sin cycB / Real.cos cycB := Real.tan_eq_sin_div_cos cycB
  constructor
  · rw [ht, le_div_iff_of_neg hcneg]
    nlinarith [hsu, hcu]
  · rw [ht, div_le_iff_of_neg hcneg]
    nlinarith [hsl, hcl]

/-- Enclosure of the cycle mean anomaly `a = b - t`. -/
theorem cycA_bounds : (6.0318851059 : ℝ) ≤ cycA ∧ cycA ≤ 6.0432333355 := by
  obtain ⟨h1, h2⟩ := cycT_bounds
  unfold cycA cycB
  constructor <;> linarith

/-- Rigorous enclosure of `sin a` and `cos a` for the cycle anomaly, by
reduction mod `2π` and the Lipschitz bound around `-0.245585`. -/
theorem cycA_sin_cos_bounds :
    (-0.2490217291 : ℝ) ≤ Real.sin cycA ∧ Real.sin cycA ≤ -0.2372110307 ∧
    (0.9639386547 : ℝ) ≤ Real.cos cycA ∧ Real.cos cycA ≤ 0.9757493531 := by
  obtain ⟨hal, hau⟩ := cycA_bounds
  have hpiL : (3.141592 : ℝ) < π := Real.pi_gt_d6
  have hpiU : π < 3.141593 := Real.pi_lt_d6
  have hdist : |cycA - 2 * π - (-0.245585 : ℝ)| ≤ 0.0057158941 := by
    rw [abs_le]
    constructor <;> linarith
  have habsq : |(-0.245585 : ℝ)| = 0.245585 := by
    rw [abs_of_neg (by norm_num)]
    norm_num
  have hsq' := Real.sin_bound (x := (-0.245585 : ℝ)) (by rw [habsq]; norm_num)
  have hcq' := Real.cos_bound (x := (-0.245585 : ℝ)) (by rw [habsq]; norm_num)
  rw [habsq, abs_le] at hsq' hcq'
  have hsq : (-0.243305835 : ℝ) ≤ Real.sin (-0.245585) ∧
      Real.sin (-0.245585) ≤ -0.2429269248 := by
    constructor <;> nlinarith [hsq'.1, hsq'.2]
  have hcq : (0.9696545488 : ℝ) ≤ Real.cos (-0.245585) ∧
      Real.cos (-0.245585) ≤ 0.970033459 := by
    constructor <;> nlinarith [hcq'.1, hcq'.2]
  have hsin_eq : Real.sin cycA = Real.sin (cycA - 2 * π) :=
    (Real.sin_sub_two_pi cycA).symm
  have hcos_eq : Real.cos cycA = Real.cos (cycA - 2 * π) :=
    (Real.cos_sub_two_pi cycA).symm
  have hs_b : |Real.sin (cycA - 2 * π) - Real.sin (-0.245585)| ≤ 0.0057158941 :=
    le_trans (abs_sin_sub_sin_le (cycA - 2 * π) (-0.245585)) hdist
  have hc_b : |Real.cos (cycA - 2 * π) - Real.cos (-0.245585)| ≤ 0.0057158941 :=
    le_trans (abs_cos_sub_cos_le (cycA - 2 * π) (-0.245585)) hdist
  rw [abs_le] at hs_b hc_b
  refine ⟨?_, ?_, ?_, ?_⟩
  · rw [hsin_eq]
    linarith [hs_b.1, hsq.1]
  · rw [hsin_eq]
    linarith [hs_b.2, hsq.2]
  · rw [hcos_eq]
    linarith [hc_b.1, hcq.1]
  · rw [hcos_eq]
    linarith [hc_b.2, hcq.2]

/-- Derived sign facts and the eccentricity range of the cycle. -/
theorem cyc_facts :
    cycT < 0 ∧ Real.sin cycA ≠ 0 ∧ cycD < cycT ∧ cycD ≠ 0 ∧
      0 ≤ cycE ∧ cycE < 1 := by
  obtain ⟨htl, htu⟩ := cycT_bounds
  obtain ⟨hsal, hsau, hcal, hcau⟩ := cycA_sin_cos_bounds
  have htneg : cycT < 0 := lt_of_le_of_lt htu (by norm_num)
  have hsane : Real.sin cycA ≠ 0 := ne_of_lt (lt_of_le_of_lt hsau (by norm_num))
  have hDt : cycD < cycT := by
    unfold cycD
    have k1 : 0 ≤ (cycT - (-4.2405333355)) * (1 - Real.cos cycA) :=
      mul_nonneg (by linarith) (by linarith [hcau])
    nlinarith [k1, hsau, hcau]
  have hDneg : cycD < 0 := lt_trans hDt htneg
  have hE0 : 0 ≤ cycE :=
    div_nonneg_of_nonpos htneg.le hDneg.le
  have hE1 : cycE < 1 := by
    have hsub : cycE - 1 = (cycT - cycD) / cycD := by
      unfold cycE
      rw [sub_div, div_self hDneg.ne]
    have hneg : (cycT - cycD) / cycD < 0 :=
      div_neg_of_pos_of_neg (by linarith) hDneg
    linarith [hsub ▸ hneg]
  exact ⟨htneg, hsane, hDt, hDneg.ne, hE0, hE1⟩

/-- The Newton correction at the cycle's starting iterate `E = M = a`
equals exactly `t`. -/
theorem kepDelta_at_cycA : kepDelta cycA cycE cycA = cycT := by
  obtain ⟨htneg, hsane, hDt, hDne, hE0, hE1⟩ := cyc_facts
  have hDdef : cycD - cycT * Real.cos cycA = Real.sin cycA := by
    unfold cycD
    ring
  have hden : 1 - cycE * Real.cos cycA = Real.sin cycA / cycD := by
    unfold cycE
    rw [← hDdef]
    field_simp
  have hnum : cycA - cycA + cycE * Real.sin cycA =
      cycT * Real.sin cycA / cycD := by
    unfold cycE
    ring
  rw [kepDelta, hnum, hden]
  rw [div_div_div_cancel_right₀]
  · exact mul_div_cancel_right₀ cycT hsane
  · exact hDne

/-- The Newton correction at the cycle's second iterate `E = b` equals
exactly `-t`, since `t = tan b`. -/
theorem kepDelta_at_cycB : kepDelta cycA cycE cycB = -cycT := by
  obtain ⟨htneg, hsane, hDt, hDne, hE0, hE1⟩ := cyc_facts
  have hcbne : Real.cos cycB ≠ 0 := by
    obtain ⟨hsl, hsu, hcl, hcu⟩ := cycB_sin_cos_bounds
    exact ne_of_lt (lt_of_le_of_lt hcu (by norm_num))
  have hsb : Real.sin cycB = cycT * Real.cos cycB := by
    unfold cycT
    rw [Real.tan_eq_sin_div_cos, div_mul_cancel₀ _ hcbne]
  have hden : (0 : ℝ) < 1 - cycE * Real.cos cycB := kepler_denom_pos hE0 hE1 cycB
  have hnum : cycA - cycB + cycE * Real.sin cycB =
      -cycT * (1 - cycE * Real.cos cycB) := by
    rw [hsb]
    unfold cycA
    ring
  rw [kepDelta, hnum, mul_div_assoc, div_self hden.ne', mul_one]

/-- With mean anomaly `a`, eccentricity `e = t/D` and tolerance `|t|/2`,
the embedded Newton loop cycles between `a` and `b` forever: it returns
`none` for every fuel, from either cycle point. -/
theorem kepIter_cycles (fuel : ℕ) :
    kepIter cycA cycE (-cycT / 2) fuel cycA = none ∧
    kepIter cycA cycE (-cycT / 2) fuel cycB = none := by
  obtain ⟨htneg, hsane, hDt, hDne, hE0, hE1⟩ := cyc_facts
  have hnotA : ¬ |kepDelta cycA cycE cycA| ≤ -cycT / 2 := by
    rw [kepDelta_at_cycA, abs_of_neg htneg]
    intro h
    linarith
  have hnotB : ¬ |kepDelta cycA cycE cycB| ≤ -cycT / 2 := by
    rw [kepDelta_at_cycB, abs_neg, abs_of_neg htneg]
    intro h
    linarith
  have hAB : cycA + kepDelta cycA cycE cycA = cycB := by
    rw [kepDelta_at_cycA]
    unfold cycA
    ring
  have hBA : cycB + kepDelta cycA cycE cycB = cycA := by
    rw [kepDelta_at_cycB]
    unfold cycA
    ring
  induction fuel with
  | zero =>
    constructor
    · simp only [kepIter]
      rw [if_neg hnotA]
    · simp only [kepIter]
      rw [if_neg hnotB]
  | succ n ih =>
    constructor
    · simp only [kepIter]
      rw [if_neg hnotA, hAB]
      exact ih.2
    · simp only [kepIter]
      rw [if_neg hnotB, hBA]
      exact ih.1

/-- Claim C5 (counterexample): it is not the case that the Newton loop of
`solveKepler` terminates for every mean anomaly, every eccentricity in
`[0, 1)` and every positive tolerance: at `M = a = 1.8027 - tan 1.8027`,
`e = tan 1.8027 / (sin a + tan 1.8027 · cos a) ≈ 0.9733` and tolerance
`-tan 1.8027 / 2 ≈ 2.1`, the iteration cycles between `a` and `b = 1.8027`
forever. -/
theorem solveKepler_not_always_terminating :
    ¬ ∀ M e tolerance : ℝ, 0 ≤ e → e < 1 → 0 < tolerance →
      ∃ fuel E, solveKepler M e tolerance fuel = some E := by
  intro hall
  obtain ⟨htneg, hsane, hDt, hDne, hE0, hE1⟩ := cyc_facts
  obtain ⟨fuel, E, hE⟩ :=
    hall cycA cycE (-cycT / 2) hE0 hE1 (by linarith)
  rw [solveKepler, (kepIter_cycles fuel).1] at hE
  exact Option.noConfusion hE

/-- Quadratic residual bound after one Newton step (raw form). -/
theorem abs_residual_sq (M e E : ℝ) (he0 : 0 ≤ e) (he1 : e < 1)
    (hd1 : |kepDelta M e E| ≤ 1) :
    |E + kepDelta M e E - e * Real.sin (E + kepDelta M e E) - M| ≤
      e * (3 / 4 * kepDelta M e E ^ 2) := by
  have hne : 1 - e * Real.cos E ≠ 0 := (kepler_denom_pos he0 he1 E).ne'
  rw [residual_after_step M e E hne, abs_mul, abs_of_nonneg he0]
  have key : |kepDelta M e E * Real.cos E -
      (Real.sin (E + kepDelta M e E) - Real.sin E)| ≤
      3 / 4 * kepDelta M e E ^ 2 := by
    have h3 := sin_add_taylor_bound E (kepDelta M e E) hd1
    have hrw : kepDelta M e E * Real.cos E -
        (Real.sin (E + kepDelta M e E) - Real.sin E) =
        -(Real.sin (E + kepDelta M e E) - Real.sin E -
          kepDelta M e E * Real.cos E) := by ring
    rw [hrw, abs_neg]
    exact h3
  exact mul_le_mul_of_nonneg_left key he0

/-- One Newton step at least quarters the squared correction when
`e ≤ 1/2`: the next correction is at most `(3/4) δ²`. -/
theorem kepDelta_next_le (M e E : ℝ) (he0 : 0 ≤ e) (he : e ≤ 1 / 2)
    (hd1 : |kepDelta M e E| ≤ 1) :
    |kepDelta M e (E + kepDelta M e E)| ≤ 3 / 4 * kepDelta M e E ^ 2 := by
  have he1 : e < 1 := lt_of_le_of_lt he (by norm_num)
  have hden := kepler_denom_pos he0 he1 (E + kepDelta M e E)
  have hnum := abs_residual_sq M e E he0 he1 hd1
  have hnum' : |M - (E + kepDelta M e E) +
      e * Real.sin (E + kepDelta M e E)| ≤ e * (3 / 4 * kepDelta M e E ^ 2) := by
    rw [show M - (E + kepDelta M e E) + e * Real.sin (E + kepDelta M e E) =
      -(E + kepDelta M e E - e * Real.sin (E + kepDelta M e E) - M) from by ring,
      abs_neg]
    exact hnum
  rw [kepDelta, abs_div, abs_of_pos hden]
  rw [div_le_iff₀ hden]
  have hden_ge : 1 - e ≤ 1 - e * Real.cos (E + kepDelta M e E) := by
    have h1 : e * Real.cos (E + kepDelta M e E) ≤ e :=
      mul_le_of_le_one_right he0 (Real.cos_le_one _)
    linarith
  have hq : 0 ≤ 3 / 4 * kepDelta M e E ^ 2 := by positivity
  calc |M - (E + kepDelta M e E) + e * Real.sin (E + kepDelta M e E)| ≤
        e * (3 / 4 * kepDelta M e E ^ 2) := hnum'
    _ ≤ (1 - e) * (3 / 4 * kepDelta M e E ^ 2) := by nlinarith [hq]
    _ ≤ (3 / 4 * kepDelta M e E ^ 2) * (1 - e * Real.cos (E + kepDelta M e E)) := by
        rw [mul_comm]
        exact mul_le_mul_of_nonneg_left hden_ge hq

/-- The corrections of the Newton iteration started at `E₀ = M` decay
geometrically when `e ≤ 1/2`. -/
theorem kepDelta_decay (M e : ℝ) (he0 : 0 ≤ e) (he : e ≤ 1 / 2) :
    ∀ n, |kepDelta M e ((fun E => E + kepDelta M e E)^[n] M)| ≤ (3 / 4) ^ n := by
  have he1 : e < 1 := lt_of_le_of_lt he (by norm_num)
  intro n
  induction n with
  | zero =>
    simp only [Function.iterate_zero, id_eq, pow_zero]
    have hden := kepler_denom_pos he0 he1 M
    rw [kepDelta, abs_div, abs_of_pos hden, div_le_one hden]
    have h1 : |M - M + e * Real.sin M| = e * |Real.sin M| := by
      rw [show M - M + e * Real.sin M = e * Real.sin M from by ring, abs_mul,
        abs_of_nonneg he0]
    rw [h1]
    have h2 : |Real.sin M| ≤ 1 := Real.abs_sin_le_one M
    have h3 : e * Real.cos M ≤ e :=
      mul_le_of_le_one_right he0 (Real.cos_le_one M)
    nlinarith [h2, h3]
  | succ n ih =>
    rw [Function.iterate_succ_apply']
    have h1 : |kepDelta M e ((fun E => E + kepDelta M e E)^[n] M)| ≤ 1 :=
      le_trans ih (pow_le_one₀ (by norm_num) (by norm_num))
    have h2 := kepDelta_next_le M e ((fun E => E + kepDelta M e E)^[n] M)
      he0 he h1
    have hsq : kepDelta M e ((fun E => E + kepDelta M e E)^[n] M) ^ 2 ≤
        (3 / 4) ^ n := by
      rw [← sq_abs]
      calc |kepDelta M e ((fun E => E + kepDelta M e E)^[n] M)| ^ 2 ≤
            ((3 / 4 : ℝ) ^ n) ^ 2 := pow_le_pow_left₀ (abs_nonneg _) ih 2
        _ = (3 / 4 : ℝ) ^ (n * 2) := by rw [← pow_mul]
        _ ≤ (3 / 4 : ℝ) ^ n :=
            pow_le_pow_of_le_one (by norm_num) (by norm_num) (by omega)
    calc |kepDelta M e ((fun E => E + kepDelta M e E) ((fun E => E + kepDelta M e E)^[n] M))| ≤
          3 / 4 * kepDelta M e ((fun E => E + kepDelta M e E)^[n] M) ^ 2 := h2
      _ ≤ 3 / 4 * (3 / 4) ^ n := by linarith [hsq]
      _ = (3 / 4 : ℝ) ^ (n + 1) := by rw [pow_succ]; ring

/-- If the correction at the `fuel`-th iterate is within tolerance, the
loop returns within `fuel` further iterations. -/
theorem kepIter_some_of_delta_le (M e tolerance : ℝ) :
    ∀ fuel E₀,
      |kepDelta M e ((fun E => E + kepDelta M e E)^[fuel] E₀)| ≤ tolerance →
      ∃ E, kepIter M e tolerance fuel E₀ = some E := by
  intro fuel
  induction fuel with
  | zero =>
    intro E₀ h
    simp only [Function.iterate_zero, id_eq] at h
    refine ⟨E₀ + kepDelta M e E₀, ?_⟩
    simp only [kepIter]
    rw [if_pos h]
  | succ n ih =>
    intro E₀ h
    by_cases h0 : |kepDelta M e E₀| ≤ tolerance
    · refine ⟨E₀ + kepDelta M e E₀, ?_⟩
      simp only [kepIter]
      rw [if_pos h0]
    · rw [Function.iterate_succ_apply] at h
      obtain ⟨E, hE⟩ := ih (E₀ + kepDelta M e E₀) h
      refine ⟨E, ?_⟩
      simp only [kepIter]
      rw [if_neg h0]
      exact hE

/-- Claim C5 (amended): for every mean anomaly and every positive
tolerance, the Newton loop terminates whenever `0 ≤ e ≤ 1/2` (by quadratic
contraction); by `solveKepler_not_always_terminating` this cannot be
extended to all `e < 1`. -/
theorem solveKepler_terminates_of_e_le_half (M e tolerance : ℝ)
    (he0 : 0 ≤ e) (he : e ≤ 1 / 2) (htol : 0 < tolerance) :
    ∃ fuel E, solveKepler M e tolerance fuel = some E := by
  obtain ⟨n, hn⟩ := exists_pow_lt_of_lt_one htol (by norm_num : (3 : ℝ) / 4 < 1)
  obtain ⟨E, hE⟩ := kepIter_some_of_delta_le M e tolerance n M
    (le_trans (kepDelta_decay M e he0 he n) hn.le)
  exact ⟨n, E, hE⟩

/-- Witness for the amended C5 at `M = 1`, `e = 1/2`, tolerance `1e-8`. -/
theorem solveKepler_terminates_of_e_le_half_witness :
    0 ≤ (1 / 2 : ℝ) ∧ (1 / 2 : ℝ) ≤ 1 / 2 ∧ 0 < (1e-8 : ℝ) ∧
    ∃ fuel E, solveKepler 1 (1 / 2) 1e-8 fuel = some E :=
  ⟨by norm_num, le_refl _, by norm_num,
   solveKepler_terminates_of_e_le_half 1 (1 / 2) 1e-8 (by norm_num)
     (le_refl _) (by norm_num)⟩
